import Mathlib

/-!
Shallow embedding of the go-rollbar client library.

The repository provides two structurally similar client implementations:
  * `src/client.go` — the older `httpClient` with `payload`, `newRequest`,
    `Do` and `parseResponse` (sets a stack `Fingerprint` on the payload);
  * `src/unnamed/part_001` — the consolidated `Client` with `payload`
    (UUID- and custom-field-aware), `post`, `parseResponse` and the five
    public severity methods `Debug`, `Info`, `Error`, `Warn`, `Critical`;
  * `src/unnamed/part_000` — the wire `Response`/`Result` types.

External effects (JSON marshalling, the HTTP round trip via ctxhttp,
UUID generation, the captured runtime stack, the wall clock) are modelled
as oracle inputs supplied in environment records; the functions below
mirror the Go control flow over those oracles and additionally return the
trace of observable events (serialization, request construction, network
posts, logger calls) in program order, so that claims about what happens
before or instead of network activity are statable.
-/

deriving instance DecidableEq for Except

/-- Go error values as produced and consumed by the client: `errors.New` /
`errors.Errorf`, `errors.Wrap` (whose message is `msg ++ ": " ++ cause`),
the two context errors, and opaque errors from external libraries. -/
inductive GoError where
  | new (msg : String)
  | wrap (msg : String) (cause : GoError)
  | ctxCanceled
  | ctxDeadlineExceeded
  | other (msg : String)
deriving DecidableEq, Repr

/-- The string produced by the Go `Error()` method of a `GoError`. -/
def GoError.message : GoError → String
  | .new m => m
  | .wrap m c => m ++ ": " ++ c.message
  | .ctxCanceled => "context canceled"
  | .ctxDeadlineExceeded => "context deadline exceeded"
  | .other m => m

/-- State of the caller-supplied `context.Context`: live, cancelled, or past
its deadline. -/
inductive CtxState where
  | live
  | canceled
  | deadlineExceeded
deriving DecidableEq, Repr

/-- `ctx.Err()`: `nil` while live, otherwise the corresponding context error. -/
def CtxState.errE : CtxState → Option GoError
  | .live => none
  | .canceled => some GoError.ctxCanceled
  | .deadlineExceeded => some GoError.ctxDeadlineExceeded

/-- api/v1 `Result` (src/unnamed/part_000): server-assigned occurrence id. -/
structure Result where
  uuid : String
deriving DecidableEq, Repr

/-- api/v1 `Response` (src/unnamed/part_000): remote status code (`err`),
result object, optional message. -/
structure Response where
  err : Int
  result : Result
  message : String
deriving DecidableEq, Repr

/-- An HTTP response as seen by the transport: numeric status code, the
status text (`resp.Status`, e.g. "500 Internal Server Error"), raw body. -/
structure HTTPResponse where
  statusCode : Nat
  status : String
  body : String
deriving DecidableEq, Repr

/-- Outcome of the external `ctxhttp.Do` round trip: a response, or a
transport error (which, per the ctxhttp contract, is the context error
when the context was cancelled mid-flight). -/
inductive DoOutcome where
  | ok (resp : HTTPResponse)
  | err (e : GoError)
deriving DecidableEq, Repr

/-- Modelled from the spec: a captured stack frame — "function name, file
path, line number" (the `CreateStack` implementation is not under src/). -/
structure Frame where
  method : String
  filename : String
  line : Nat
deriving DecidableEq, Repr

/-- A captured stack: ordered frames, innermost first. -/
abbrev Stack := List Frame

/-- One 32-bit mixing step of a string into a running hash value. -/
def hashStep (h : Nat) (s : String) : Nat :=
  s.foldl (fun a c => (a * 65599 + c.toNat) % 4294967296) h

/-- Modelled from the spec: `Fingerprint(Stack) -> string` — a deterministic
function of frame identity (function name + file + line) for every frame,
with no addresses, timestamps or randomness (the `Stack.Fingerprint`
implementation is not under src/; only its call site in client.go is). -/
def Stack.fingerprint (s : Stack) : String :=
  toString (s.foldl (fun h f => hashStep h (f.filename ++ f.method ++ toString f.line)) 0)

/-- Modelled from the spec: package identity constants (notifier name and
version, language tag, user agent) live in a file not present under src/;
their concrete values do not affect any claim. -/
def Name : String := "go-rollbar"

/-- Modelled from the spec: library version constant (file not under src/). -/
def Version : String := "0.0.0"

/-- Modelled from the spec: language tag constant (file not under src/). -/
def language : String := "go"

/-- Modelled from the spec: fixed user agent naming the library and version. -/
def UserAgent : String := Name ++ "/" ++ Version

/-- Severity level (a string type in the source). -/
abbrev Level := String

/-- Debug severity. -/
def DebugLevel : Level := "debug"

/-- Info severity. -/
def InfoLevel : Level := "info"

/-- Warning severity. -/
def WarnLevel : Level := "warning"

/-- Error severity. -/
def ErrorLevel : Level := "error"

/-- Critical severity. -/
def CriticalLevel : Level := "critical"

/-- Per-call custom structured fields (`map[string]interface{}` in Go,
carried opaquely by the payload builder). -/
abbrev CustomMap := List (String × String)

/-- Per-call options consumed by `Client.payload` (src/unnamed/part_001
reads only `Key()`/`Value()` with keys `keyCustom` and `keyUUID`; the
option constructors themselves are not under src/ and follow the spec:
"custom structured fields, explicit occurrence identifier"). -/
inductive ErrorOption where
  | custom (m : CustomMap)
  | uuid (id : String)
deriving DecidableEq, Repr

/-- The `id` left by the option loop of `Client.payload`: starts as the
empty string, each `keyUUID` option overwrites it (last one wins). -/
def suppliedUUID (options : List ErrorOption) : String :=
  options.foldl (fun acc o => match o with
    | ErrorOption.uuid v => v
    | ErrorOption.custom _ => acc) ""

/-- The `customs` map left by the option loop of `Client.payload`: nil by
default, each `keyCustom` option overwrites it (last one wins). -/
def suppliedCustom (options : List ErrorOption) : Option CustomMap :=
  options.foldl (fun acc o => match o with
    | ErrorOption.uuid _ => acc
    | ErrorOption.custom m => some m) none

/-- api/v1 `Server` block of the payload. -/
structure Server where
  host : String
  root : String
  branch : String
deriving DecidableEq, Repr

/-- api/v1 `Notifier` identity block. -/
structure Notifier where
  name : String
  version : String
deriving DecidableEq, Repr

/-- api/v1 `Data` record of the payload (union of the fields either
implementation sets; fields an implementation does not set keep their Go
zero value). The error body is modelled as the captured stack it carries. -/
structure Data where
  title : String
  body : Stack
  environment : String
  level : Level
  timestamp : Int
  platform : String
  codeVersion : String
  language : String
  server : Server
  fingerprint : String
  notifier : Notifier
  custom : Option CustomMap
  uuid : String
deriving DecidableEq, Repr

/-- api/v1 `Payload`: access token plus the `Data` record. -/
structure Payload where
  accessToken : String
  data : Data
deriving DecidableEq, Repr

/-- Observable events of a post, in program order. -/
inductive Event where
  | marshal
  | newRequest
  | netPost (endpoint : String) (body : String)
  | log (msg : String)
deriving DecidableEq, Repr

/-- Configuration of the consolidated `Client` (src/unnamed/part_001). -/
structure ClientCfg where
  token : String
  endpoint : String
  debug : Bool
  environment : String
  platform : String
  codeVersion : String
  serverHost : String
  serverRoot : String
deriving DecidableEq, Repr

/-- Oracle environment for one call through the consolidated client:
the captured stack, the clock, the fresh UUID `uuid.New().String()` would
return, the JSON marshaller for the outgoing payload and its debug
pretty-printer, the outcome of `http.NewRequest`, the outcome of
`ctxhttp.Do`, and the response-side JSON functions (`json.Unmarshal` into
`api.Response` used by the debug trace with its pretty-printer, and the
final `json.NewDecoder(...).Decode` into a generic value). -/
structure PostEnv where
  stack : Stack
  now : Int
  freshUUID : String
  marshal : Payload → Except GoError String
  marshalIndent : Payload → String
  newRequestErr : Option GoError
  doOutcome : DoOutcome
  unmarshalResp : String → Except GoError Response
  prettyResp : Response → String
  decodeAny : String → Except GoError Unit

/-- `Client.payload` (src/unnamed/part_001 lines 102-148): title from the
error (sentinel for nil), option loop for customs and explicit id, fresh
UUID when the id is empty, then the Data record. -/
def Client.payload (c : ClientCfg) (env : PostEnv) (level : Level)
    (err : Option String) (options : List ErrorOption) : Payload :=
  let title := match err with
    | none => "<nil>"
    | some s => s
  let id0 := suppliedUUID options
  let id := if id0 = "" then env.freshUUID else id0
  { accessToken := c.token,
    data := {
      title := title,
      body := env.stack,
      environment := c.environment,
      level := level,
      timestamp := env.now,
      platform := c.platform,
      codeVersion := "",
      language := language,
      server := { host := c.serverHost, root := c.serverRoot, branch := "" },
      fingerprint := "",
      notifier := { name := Name, version := Version },
      custom := suppliedCustom options,
      uuid := id } }

/-- `Client.parseResponse` (src/unnamed/part_001 lines 189-207): when debug
is set, the body is captured once into a buffer, the debug trace is emitted
(marker lines naming the endpoint around either the pretty-printed decoded
response or the unmarshal failure plus the raw body), and the final decode
reads the same captured bytes; the decoded value goes into a local generic
variable, so only the decode error is returned. -/
def Client.parseResponse (c : ClientCfg) (env : PostEnv) (body : String) :
    Except GoError Unit × List String :=
  let logs :=
    if c.debug then
      ["-----> " ++ c.endpoint ++ " (response)"] ++
      (match env.unmarshalResp body with
       | Except.error e => ["failed to unmarshal payload: " ++ e.message, body]
       | Except.ok m => [env.prettyResp m]) ++
      ["<----- " ++ c.endpoint ++ " (response)"]
    else []
  (env.decodeAny body, logs)

/-- `Client.post` (src/unnamed/part_001 lines 151-186): empty-token guard,
payload build, JSON marshal, optional debug dump of the request, request
construction, `ctxhttp.Do` bound to the caller context (errors wrapped as
"failed to POST to rollbar"), non-200 rejection carrying the status text,
then `parseResponse`. Returns the Go error result with the event trace. -/
def Client.post (c : ClientCfg) (env : PostEnv) (ctx : CtxState)
    (level : Level) (err : Option String) (options : List ErrorOption) :
    Except GoError Unit × List Event :=
  if c.token = "" then
    (Except.error (GoError.new "empty token"), [])
  else
    let payload := Client.payload c env level err options
    match env.marshal payload with
    | Except.error e =>
      (Except.error (GoError.wrap "failed to encode payload" e), [Event.marshal])
    | Except.ok data =>
      let ev1 := [Event.marshal] ++
        (if c.debug then [Event.log (env.marshalIndent payload)] else [])
      match env.newRequestErr with
      | some _ => (Except.error (GoError.new "failed to create new POST request"), ev1)
      | none =>
        let ev2 := ev1 ++ [Event.newRequest]
        match env.doOutcome with
        | DoOutcome.err e =>
          (Except.error (GoError.wrap "failed to POST to rollbar" e),
           ev2 ++ [Event.netPost c.endpoint data])
        | DoOutcome.ok resp =>
          let ev3 := ev2 ++ [Event.netPost c.endpoint data]
          if resp.statusCode ≠ 200 then
            (Except.error (GoError.new ("received response: " ++ resp.status)), ev3)
          else
            let pr := Client.parseResponse c env resp.body
            (pr.1, ev3 ++ pr.2.map Event.log)

/-- `Client.Debug` (src/unnamed/part_001 lines 210-214): post at debug
level; a failure is routed only to the injected logger. The method itself
returns nothing to its caller, so the model returns only the event trace. -/
def Client.Debug (c : ClientCfg) (env : PostEnv) (ctx : CtxState)
    (err : Option String) (options : List ErrorOption) : List Event :=
  match Client.post c env ctx DebugLevel err options with
  | (Except.error e, evs) => evs ++ [Event.log ("rollbar: Debug: " ++ e.message)]
  | (Except.ok _, evs) => evs

/-- `Client.Info` (src/unnamed/part_001 lines 217-221). -/
def Client.Info (c : ClientCfg) (env : PostEnv) (ctx : CtxState)
    (err : Option String) (options : List ErrorOption) : List Event :=
  match Client.post c env ctx InfoLevel err options with
  | (Except.error e, evs) => evs ++ [Event.log ("rollbar: Info: " ++ e.message)]
  | (Except.ok _, evs) => evs

/-- `Client.Error` (src/unnamed/part_001 lines 224-228). -/
def Client.Error (c : ClientCfg) (env : PostEnv) (ctx : CtxState)
    (err : Option String) (options : List ErrorOption) : List Event :=
  match Client.post c env ctx ErrorLevel err options with
  | (Except.error e, evs) => evs ++ [Event.log ("rollbar: Error: " ++ e.message)]
  | (Except.ok _, evs) => evs

/-- `Client.Warn` (src/unnamed/part_001 lines 231-235). -/
def Client.Warn (c : ClientCfg) (env : PostEnv) (ctx : CtxState)
    (err : Option String) (options : List ErrorOption) : List Event :=
  match Client.post c env ctx WarnLevel err options with
  | (Except.error e, evs) => evs ++ [Event.log ("rollbar: Warn: " ++ e.message)]
  | (Except.ok _, evs) => evs

/-- `Client.Critical` (src/unnamed/part_001 lines 238-242). -/
def Client.Critical (c : ClientCfg) (env : PostEnv) (ctx : CtxState)
    (err : Option String) (options : List ErrorOption) : List Event :=
  match Client.post c env ctx CriticalLevel err options with
  | (Except.error e, evs) => evs ++ [Event.log ("rollbar: Critical: " ++ e.message)]
  | (Except.ok _, evs) => evs

/-- Configuration of the older `httpClient` (src/client.go). -/
structure HttpCfg where
  token : String
  endpoint : String
  debug : Bool
  environment : String
  platform : String
  codeVersion : String
  serverHost : String
  serverRoot : String
  serverBranch : String
  stackskip : Nat
deriving DecidableEq, Repr

/-- Oracle environment for the older httpClient: outcome of `ctxhttp.Do`,
the debug pretty-printer (`json.Unmarshal` into a generic map followed by
`json.MarshalIndent`, collapsed into its formatted output or its error),
and the final `json.NewDecoder(...).Decode` into `api.Response`. -/
structure HEnv where
  doOutcome : DoOutcome
  unmarshalMap : String → Except GoError String
  decodeResponse : String → Except GoError Response

/-- `httpClient.payload` (src/client.go lines 112-144): title from the
error (sentinel for nil), captured stack, Data record carrying the stack
fingerprint. The captured stack `CreateStack(c.stackskip)` is an oracle
input. -/
def httpClient.payload (c : HttpCfg) (stack : Stack) (now : Int)
    (level : Level) (err : Option String) : Payload :=
  let title := match err with
    | none => "<nil>"
    | some s => s
  { accessToken := c.token,
    data := {
      title := title,
      body := stack,
      environment := c.environment,
      level := level,
      timestamp := now,
      platform := c.platform,
      codeVersion := c.codeVersion,
      language := language,
      server := { host := c.serverHost, root := c.serverRoot, branch := c.serverBranch },
      fingerprint := Stack.fingerprint stack,
      notifier := { name := Name, version := Version },
      custom := none,
      uuid := "" } }

/-- An outgoing HTTP request as built by `httpClient.newRequest`. -/
structure Request where
  method : String
  url : String
  body : String
  contentType : String
  userAgent : String
deriving DecidableEq, Repr

/-- `httpClient.newRequest` (src/client.go lines 147-166): empty-token
guard before anything else, JSON marshal, request construction, then the
content-type and user-agent headers. `marshal` and `newReqErr` are the
oracles for `json.Marshal` and `http.NewRequest`. -/
def httpClient.newRequest (c : HttpCfg) (marshal : Payload → Except GoError String)
    (newReqErr : Option GoError) (payload : Payload) : Except GoError Request :=
  if c.token = "" then
    Except.error (GoError.new "empty token")
  else
    match marshal payload with
    | Except.error e => Except.error (GoError.wrap "failed to encode payload" e)
    | Except.ok data =>
      match newReqErr with
      | some e => Except.error (GoError.wrap "failed to create new POST request" e)
      | none =>
        Except.ok { method := "POST", url := c.endpoint, body := data,
                    contentType := "application/json", userAgent := UserAgent }

/-- `httpClient.parseResponse` (src/client.go lines 194-212): when debug is
set, the body is copied once into a buffer, the debug trace (marker lines
naming the endpoint around the pretty-printed body or the unmarshal
failure message) goes to the logger, and the decoder then reads the same
captured bytes; the decoded `api.Response` is returned through the `res`
out-parameter, modelled as the first component of the result. -/
def httpClient.parseResponse (c : HttpCfg) (env : HEnv) (body : String) :
    Except GoError Response × List String :=
  let logs :=
    if c.debug then
      ["-----> " ++ c.endpoint ++ " (response)\n"] ++
      (match env.unmarshalMap body with
       | Except.error e => ["failed to unmarshal payload: " ++ e.message]
       | Except.ok formatted => [formatted ++ "\n"]) ++
      ["<----- " ++ c.endpoint ++ " (response)\n"]
    else []
  (env.decodeResponse body, logs)

/-- `httpClient.Do` (src/client.go lines 170-191): `ctxhttp.Do`; on error,
a `select` returns `ctx.Err()` when the context is done and otherwise the
wrapped transport error; a non-200 status is rejected with the status
text; on 200 the body goes to `parseResponse`, which fills `res`. -/
def httpClient.Do (c : HttpCfg) (env : HEnv) (ctx : CtxState) :
    Except GoError Response × List String :=
  match env.doOutcome with
  | DoOutcome.err e =>
    match ctx.errE with
    | some ce => (Except.error ce, [])
    | none => (Except.error (GoError.wrap "failed to POST to rollbar" e), [])
  | DoOutcome.ok resp =>
    if resp.statusCode ≠ 200 then
      (Except.error (GoError.new ("received response: " ++ resp.status)), [])
    else
      httpClient.parseResponse c env resp.body

/-- A one-frame sample stack used by concrete witnesses. -/
def stackS : Stack := [{ method := "main", filename := "main.go", line := 10 }]

/-- Sample 200 response whose body decodes to result uuid "X". -/
def respOKX : HTTPResponse := { statusCode := 200, status := "200 OK", body := "bodyX" }

/-- Sample 200 response whose body decodes to result uuid "Y". -/
def respOKY : HTTPResponse := { statusCode := 200, status := "200 OK", body := "bodyY" }

/-- Sample 500 response. -/
def resp500 : HTTPResponse :=
  { statusCode := 500, status := "500 Internal Server Error", body := "oops" }

/-- Sample response decoder: "bodyX" and "bodyY" are valid JSON decoding to
result uuids "X" and "Y"; anything else is a decode error. -/
def decodeXY : String → Except GoError Response := fun s =>
  if s = "bodyX" then Except.ok { err := 0, result := { uuid := "X" }, message := "" }
  else if s = "bodyY" then Except.ok { err := 0, result := { uuid := "Y" }, message := "" }
  else Except.error (GoError.other "invalid character")

/-- Base sample oracle environment for the consolidated client: marshal
succeeds with a fixed request body, request construction succeeds, the
round trip returns the 200 "bodyX" response, decoding succeeds. -/
def envBase : PostEnv :=
  { stack := stackS, now := 0, freshUUID := "fresh-1",
    marshal := fun _ => Except.ok "reqdata",
    marshalIndent := fun _ => "pretty",
    newRequestErr := none,
    doOutcome := DoOutcome.ok respOKX,
    unmarshalResp := decodeXY,
    prettyResp := fun r => r.result.uuid,
    decodeAny := fun _ => Except.ok () }

/-- Sample consolidated-client configuration with a non-empty token. -/
def cfgTok : ClientCfg :=
  { token := "tok", endpoint := "https://api.rollbar.com/api/1/item", debug := false,
    environment := "development", platform := "linux", codeVersion := "",
    serverHost := "host", serverRoot := "" }

/-- Sample consolidated-client configuration with an empty token. -/
def cfgEmpty : ClientCfg := { cfgTok with token := "" }

/-- Sample httpClient configuration with a non-empty token. -/
def hcfgTok : HttpCfg :=
  { token := "tok", endpoint := "https://api.rollbar.com/api/1/item", debug := false,
    environment := "development", platform := "linux", codeVersion := "",
    serverHost := "host", serverRoot := "", serverBranch := "", stackskip := 3 }

/-- Sample httpClient configuration with an empty token. -/
def hcfgEmpty : HttpCfg := { hcfgTok with token := "" }

/-- Sample httpClient oracle environment returning the 200 "bodyX"
response. -/
def henvBase : HEnv :=
  { doOutcome := DoOutcome.ok respOKX,
    unmarshalMap := fun _ => Except.ok "formatted",
    decodeResponse := decodeXY }

/-- Claim C1: for every payload and context, if the access token is empty
the consolidated low-level post fails with the configuration error
"empty token" and its event trace is empty — no serialization, no request
construction and no network post happens; likewise the older
httpClient.newRequest fails with the same error for every marshaller
oracle, i.e. before serialization. -/
theorem C1_empty_token_no_network (c : ClientCfg) (env : PostEnv) (ctx : CtxState)
    (level : Level) (err : Option String) (options : List ErrorOption)
    (hc : HttpCfg) (marshal : Payload → Except GoError String)
    (nre : Option GoError) (p : Payload)
    (h : c.token = "") (h2 : hc.token = "") :
    Client.post c env ctx level err options
      = (Except.error (GoError.new "empty token"), []) ∧
    httpClient.newRequest hc marshal nre p
      = Except.error (GoError.new "empty token") := by
  constructor
  · unfold Client.post
    simp [h]
  · unfold httpClient.newRequest
    simp [h2]

/-- Witness for C1 at a concrete empty-token configuration. -/
theorem C1_empty_token_no_network_witness :
    Client.post cfgEmpty envBase CtxState.live ErrorLevel none []
      = (Except.error (GoError.new "empty token"), []) ∧
    httpClient.newRequest hcfgEmpty (fun _ => Except.ok "reqdata") none
        (httpClient.payload hcfgEmpty stackS 0 ErrorLevel none)
      = Except.error (GoError.new "empty token") :=
  C1_empty_token_no_network cfgEmpty envBase CtxState.live ErrorLevel none []
    hcfgEmpty (fun _ => Except.ok "reqdata") none
    (httpClient.payload hcfgEmpty stackS 0 ErrorLevel none) rfl rfl

/-- Claim C6: in both payload builders the Title is the fixed sentinel
string for a nil error and the error string representation otherwise. -/
theorem C6_title_sentinel (c : ClientCfg) (env : PostEnv) (hc : HttpCfg)
    (stack : Stack) (now : Int) (level : Level) (options : List ErrorOption)
    (s : String) :
    (Client.payload c env level none options).data.title = "<nil>" ∧
    (Client.payload c env level (some s) options).data.title = s ∧
    (httpClient.payload hc stack now level none).data.title = "<nil>" ∧
    (httpClient.payload hc stack now level (some s)).data.title = s :=
  ⟨rfl, rfl, rfl, rfl⟩

/-- Claim C7: in both implementations the decoded result of parseResponse
is the same whether the debug flag is set or unset, and equals exactly the
decoder applied once to the (once-captured) body — so debug tracing never
double-consumes or alters the decode, and a failure of the debug-path
pretty-print unmarshal (which the result provably does not depend on)
never aborts the call. -/
theorem C7_debug_does_not_alter_decode (hc : HttpCfg) (env : HEnv)
    (c : ClientCfg) (penv : PostEnv) (body : String) :
    (httpClient.parseResponse { hc with debug := true } env body).1
      = (httpClient.parseResponse { hc with debug := false } env body).1 ∧
    (httpClient.parseResponse hc env body).1 = env.decodeResponse body ∧
    (Client.parseResponse { c with debug := true } penv body).1
      = (Client.parseResponse { c with debug := false } penv body).1 ∧
    (Client.parseResponse c penv body).1 = penv.decodeAny body :=
  ⟨rfl, rfl, rfl, rfl⟩

/-- Claim C10: whenever the id left by the option loop is the empty string
(in particular when an explicit empty-string identifier option was
supplied), the consolidated payload builder uses the freshly generated
UUID instead, so an empty string never ends up as the occurrence
identifier when the generator returns a non-empty UUID. -/
theorem C10_empty_uuid_treated_absent (c : ClientCfg) (env : PostEnv)
    (level : Level) (err : Option String) (options : List ErrorOption)
    (h : suppliedUUID options = "") :
    (Client.payload c env level err options).data.uuid = env.freshUUID ∧
    (env.freshUUID ≠ "" →
      (Client.payload c env level err options).data.uuid ≠ "") := by
  unfold Client.payload
  simp [h]

/-- Witness for C10: an explicit empty-string identifier option yields the
fresh UUID. -/
theorem C10_empty_uuid_treated_absent_witness :
    (Client.payload cfgTok envBase ErrorLevel none [ErrorOption.uuid ""]).data.uuid
      = "fresh-1" ∧
    ("fresh-1" ≠ "" →
      (Client.payload cfgTok envBase ErrorLevel none [ErrorOption.uuid ""]).data.uuid
        ≠ "") :=
  C10_empty_uuid_treated_absent cfgTok envBase ErrorLevel none [ErrorOption.uuid ""] rfl

/-- Sample consolidated-client environment whose round trip returns the
500 response. -/
def env500 : PostEnv := { envBase with doOutcome := DoOutcome.ok resp500 }

/-- Sample httpClient environment whose round trip returns the 500
response. -/
def henv500 : HEnv := { henvBase with doOutcome := DoOutcome.ok resp500 }

/-- Sample environment whose UUID generator yields a second fresh value. -/
def envFresh2 : PostEnv := { envBase with freshUUID := "fresh-2" }

/-- Claim C3: each of the five public severity methods returns only its
event trace to the caller (the model return type has no error component,
matching the void Go signatures); whenever post fails, the error is routed
solely to the injected logger, as a single log event appended to the
trace of post, and when post succeeds nothing is added. -/
theorem C3_methods_swallow_errors (c : ClientCfg) (env : PostEnv)
    (ctx : CtxState) (err : Option String) (options : List ErrorOption) :
    (∀ e evs, Client.post c env ctx DebugLevel err options = (Except.error e, evs) →
      Client.Debug c env ctx err options
        = evs ++ [Event.log ("rollbar: Debug: " ++ e.message)]) ∧
    (∀ evs, Client.post c env ctx DebugLevel err options = (Except.ok (), evs) →
      Client.Debug c env ctx err options = evs) ∧
    (∀ e evs, Client.post c env ctx InfoLevel err options = (Except.error e, evs) →
      Client.Info c env ctx err options
        = evs ++ [Event.log ("rollbar: Info: " ++ e.message)]) ∧
    (∀ evs, Client.post c env ctx InfoLevel err options = (Except.ok (), evs) →
      Client.Info c env ctx err options = evs) ∧
    (∀ e evs, Client.post c env ctx ErrorLevel err options = (Except.error e, evs) →
      Client.Error c env ctx err options
        = evs ++ [Event.log ("rollbar: Error: " ++ e.message)]) ∧
    (∀ evs, Client.post c env ctx ErrorLevel err options = (Except.ok (), evs) →
      Client.Error c env ctx err options = evs) ∧
    (∀ e evs, Client.post c env ctx WarnLevel err options = (Except.error e, evs) →
      Client.Warn c env ctx err options
        = evs ++ [Event.log ("rollbar: Warn: " ++ e.message)]) ∧
    (∀ evs, Client.post c env ctx WarnLevel err options = (Except.ok (), evs) →
      Client.Warn c env ctx err options = evs) ∧
    (∀ e evs, Client.post c env ctx CriticalLevel err options = (Except.error e, evs) →
      Client.Critical c env ctx err options
        = evs ++ [Event.log ("rollbar: Critical: " ++ e.message)]) ∧
    (∀ evs, Client.post c env ctx CriticalLevel err options = (Except.ok (), evs) →
      Client.Critical c env ctx err options = evs) := by
  refine ⟨?_, ?_, ?_, ?_, ?_, ?_, ?_, ?_, ?_, ?_⟩
  · intro e evs h; unfold Client.Debug; rw [h]
  · intro evs h; unfold Client.Debug; rw [h]
  · intro e evs h; unfold Client.Info; rw [h]
  · intro evs h; unfold Client.Info; rw [h]
  · intro e evs h; unfold Client.Error; rw [h]
  · intro evs h; unfold Client.Error; rw [h]
  · intro e evs h; unfold Client.Warn; rw [h]
  · intro evs h; unfold Client.Warn; rw [h]
  · intro e evs h; unfold Client.Critical; rw [h]
  · intro evs h; unfold Client.Critical; rw [h]

/-- Witness for C3: a failing post (empty token) only logs, a succeeding
post adds nothing. -/
theorem C3_methods_swallow_errors_witness :
    Client.Debug cfgEmpty envBase CtxState.live none []
      = [] ++ [Event.log ("rollbar: Debug: " ++ (GoError.new "empty token").message)] ∧
    Client.Critical cfgTok envBase CtxState.live none []
      = [Event.marshal, Event.newRequest, Event.netPost cfgTok.endpoint "reqdata"] :=
  ⟨(C3_methods_swallow_errors cfgEmpty envBase CtxState.live none []).1
      (GoError.new "empty token") [] rfl,
   (C3_methods_swallow_errors cfgTok envBase CtxState.live none []).2.2.2.2.2.2.2.2.2
      [Event.marshal, Event.newRequest, Event.netPost cfgTok.endpoint "reqdata"] rfl⟩

/-- Claim C4: when the round trip yields an HTTP response, any status
other than 200 makes both implementations fail with the remote-rejection
error carrying the status text (the response decoders are never
consulted), while status 200 hands the body to parseResponse. -/
theorem C4_non200_rejected (hc : HttpCfg) (env : HEnv) (ctx : CtxState)
    (c : ClientCfg) (penv : PostEnv) (level : Level) (err : Option String)
    (options : List ErrorOption) (resp : HTTPResponse) (data : String)
    (h1 : env.doOutcome = DoOutcome.ok resp)
    (h2 : penv.doOutcome = DoOutcome.ok resp)
    (h3 : c.token ≠ "")
    (h4 : penv.marshal (Client.payload c penv level err options) = Except.ok data)
    (h5 : penv.newRequestErr = none) :
    (resp.statusCode ≠ 200 →
      (httpClient.Do hc env ctx).1
        = Except.error (GoError.new ("received response: " ++ resp.status)) ∧
      (Client.post c penv ctx level err options).1
        = Except.error (GoError.new ("received response: " ++ resp.status))) ∧
    (resp.statusCode = 200 →
      httpClient.Do hc env ctx = httpClient.parseResponse hc env resp.body ∧
      (Client.post c penv ctx level err options).1
        = (Client.parseResponse c penv resp.body).1) := by
  constructor
  · intro hs
    constructor
    · unfold httpClient.Do
      rw [h1]
      simp [hs]
    · unfold Client.post
      simp [h2, h3, h4, h5, hs]
  · intro hs
    constructor
    · unfold httpClient.Do
      rw [h1]
      simp [hs]
    · unfold Client.post
      simp [h2, h3, h4, h5, hs]

/-- Witness for C4 at the concrete 500 response. -/
theorem C4_non200_rejected_witness :
    (httpClient.Do hcfgTok henv500 CtxState.live).1
      = Except.error (GoError.new ("received response: " ++ resp500.status)) ∧
    (Client.post cfgTok env500 CtxState.live ErrorLevel none []).1
      = Except.error (GoError.new ("received response: " ++ resp500.status)) :=
  (C4_non200_rejected hcfgTok henv500 CtxState.live cfgTok env500 ErrorLevel none []
    resp500 "reqdata" rfl rfl (by decide) rfl rfl).1 (by decide)

/-- Claim C5 as stated fails on the code: here the options contain a
caller-supplied occurrence identifier (the empty string), yet the payload
UUID is the freshly generated value, not the supplied identifier. -/
theorem C5_counterexample_empty_id :
    suppliedUUID [ErrorOption.uuid ""] = "" ∧
    (Client.payload cfgTok envBase ErrorLevel none [ErrorOption.uuid ""]).data.uuid
      = "fresh-1" ∧
    "fresh-1" ≠ "" :=
  ⟨rfl, rfl, by decide⟩

/-- Claim C5 amended: if the identifier left by the option loop (the last
identifier option) is non-empty, the payload UUID equals it; an empty or
absent identifier is replaced by the freshly generated UUID, and two calls
whose generator outputs differ — the generator guarantee for consecutive
calls — produce distinct payload UUIDs. -/
theorem C5_amended_uuid_choice (c : ClientCfg) (env env1 env2 : PostEnv)
    (level : Level) (err : Option String) (options : List ErrorOption) :
    (suppliedUUID options ≠ "" →
      (Client.payload c env level err options).data.uuid = suppliedUUID options) ∧
    (suppliedUUID options = "" →
      (Client.payload c env level err options).data.uuid = env.freshUUID) ∧
    (suppliedUUID options = "" → env1.freshUUID ≠ env2.freshUUID →
      (Client.payload c env1 level err options).data.uuid
        ≠ (Client.payload c env2 level err options).data.uuid) := by
  refine ⟨?_, ?_, ?_⟩
  · intro h
    unfold Client.payload
    simp [h]
  · intro h
    unfold Client.payload
    simp [h]
  · intro h hne
    unfold Client.payload
    simp [h]
    exact hne

/-- Witness for C5 amended: a non-empty supplied identifier is used
verbatim; without one the fresh UUID is used, and distinct generator
outputs give distinct payload UUIDs. -/
theorem C5_amended_uuid_choice_witness :
    (Client.payload cfgTok envBase ErrorLevel none
        [ErrorOption.uuid "caller-id"]).data.uuid
      = suppliedUUID [ErrorOption.uuid "caller-id"] ∧
    (Client.payload cfgTok envBase ErrorLevel none []).data.uuid = "fresh-1" ∧
    (Client.payload cfgTok envBase ErrorLevel none []).data.uuid
      ≠ (Client.payload cfgTok envFresh2 ErrorLevel none []).data.uuid :=
  ⟨(C5_amended_uuid_choice cfgTok envBase envBase envBase ErrorLevel none
      [ErrorOption.uuid "caller-id"]).1 (by decide),
   (C5_amended_uuid_choice cfgTok envBase envBase envBase ErrorLevel none []).2.1 rfl,
   (C5_amended_uuid_choice cfgTok envBase envBase envFresh2 ErrorLevel none []).2.2
      rfl (by decide)⟩

/-- Sample consolidated-client environment where the round trip fails with
the context error (the cancelled-context outcome of ctxhttp). -/
def envCancel : PostEnv := { envBase with doOutcome := DoOutcome.err GoError.ctxCanceled }

/-- Sample httpClient environment where the round trip fails with the
context error. -/
def henvCancel : HEnv := { henvBase with doOutcome := DoOutcome.err GoError.ctxCanceled }

/-- Sample consolidated-client environment whose round trip returns the
200 response with body "bodyY". -/
def envRespY : PostEnv := { envBase with doOutcome := DoOutcome.ok respOKY }

/-- Two frames with equal function name, file and line are equal. -/
theorem Frame.eq_of_fields {f g : Frame} (hm : f.method = g.method)
    (hf : f.filename = g.filename) (hl : f.line = g.line) : f = g := by
  cases f
  cases g
  simp_all

/-- Claim C2 fails on the consolidated client: with the caller context
cancelled and ctxhttp returning the context error itself, Client.post
wraps it in the generic network-failure message instead of failing with
the context's own error. -/
theorem C2_counterexample_wrapped_cancellation :
    (Client.post cfgTok envCancel CtxState.canceled ErrorLevel none []).1
      = Except.error (GoError.wrap "failed to POST to rollbar" GoError.ctxCanceled) ∧
    (Client.post cfgTok envCancel CtxState.canceled ErrorLevel none []).1
      ≠ Except.error GoError.ctxCanceled :=
  ⟨rfl, by decide⟩

/-- Claim C2 amended: the older httpClient.Do does fail with the context's
own error when the context is done and the round trip fails; the
consolidated Client.post instead wraps whatever error the round trip
produced — the context error included — in the generic "failed to POST to
rollbar" message, leaving the cancellation observable only as the wrapped
cause. -/
theorem C2_amended_cancellation (hc : HttpCfg) (env : HEnv) (ctx : CtxState)
    (c : ClientCfg) (penv : PostEnv) (level : Level) (err : Option String)
    (options : List ErrorOption) (e ce : GoError) (data : String)
    (h1 : env.doOutcome = DoOutcome.err e)
    (h2 : ctx.errE = some ce)
    (h3 : penv.doOutcome = DoOutcome.err e)
    (h4 : c.token ≠ "")
    (h5 : penv.marshal (Client.payload c penv level err options) = Except.ok data)
    (h6 : penv.newRequestErr = none) :
    (httpClient.Do hc env ctx).1 = Except.error ce ∧
    (Client.post c penv ctx level err options).1
      = Except.error (GoError.wrap "failed to POST to rollbar" e) := by
  constructor
  · unfold httpClient.Do
    simp [h1, h2]
  · unfold Client.post
    simp [h3, h4, h5, h6]

/-- Witness for C2 amended at a concrete cancelled context. -/
theorem C2_amended_cancellation_witness :
    (httpClient.Do hcfgTok henvCancel CtxState.canceled).1
      = Except.error GoError.ctxCanceled ∧
    (Client.post cfgTok envCancel CtxState.canceled ErrorLevel none []).1
      = Except.error (GoError.wrap "failed to POST to rollbar" GoError.ctxCanceled) :=
  C2_amended_cancellation hcfgTok henvCancel CtxState.canceled cfgTok envCancel
    ErrorLevel none [] GoError.ctxCanceled GoError.ctxCanceled "reqdata"
    rfl rfl rfl (by decide) rfl rfl

/-- Claim C8 fails on the consolidated client: two 200 round trips whose
bodies decode to different responses (result identifiers "X" and "Y")
yield identical outputs of Client.post — the final decode targets a local
generic value, so nothing of the decoded response reaches the caller of
the low-level post. -/
theorem C8_counterexample_response_not_exposed :
    Client.post cfgTok envBase CtxState.live ErrorLevel none []
      = Client.post cfgTok envRespY CtxState.live ErrorLevel none [] ∧
    envBase.doOutcome ≠ envRespY.doOutcome ∧
    decodeXY "bodyX" ≠ decodeXY "bodyY" :=
  ⟨rfl, by decide, by decide⟩

/-- Claim C8 amended: on a 200 response whose body decodes successfully,
the older httpClient.Do exposes the decoded Response to its caller (the
res out-parameter, modelled as the ok value), and it succeeds for every
decoded value — in particular the remote status field never overrides
transport-level success; the consolidated Client.post merely succeeds,
discarding whatever the body decoded to. -/
theorem C8_amended_exposure (hc : HttpCfg) (env : HEnv) (ctx : CtxState)
    (c : ClientCfg) (penv : PostEnv) (level : Level) (err : Option String)
    (options : List ErrorOption) (resp : HTTPResponse) (r : Response) (data : String)
    (h1 : env.doOutcome = DoOutcome.ok resp)
    (h2 : resp.statusCode = 200)
    (h3 : env.decodeResponse resp.body = Except.ok r)
    (h4 : penv.doOutcome = DoOutcome.ok resp)
    (h5 : c.token ≠ "")
    (h6 : penv.marshal (Client.payload c penv level err options) = Except.ok data)
    (h7 : penv.newRequestErr = none)
    (h8 : penv.decodeAny resp.body = Except.ok ()) :
    (httpClient.Do hc env ctx).1 = Except.ok r ∧
    (Client.post c penv ctx level err options).1 = Except.ok () := by
  constructor
  · unfold httpClient.Do httpClient.parseResponse
    simp [h1, h2, h3]
  · unfold Client.post Client.parseResponse
    simp [h4, h5, h6, h7, h2, h8]

/-- Witness for C8 amended: the 200 mock with result identifier "X" makes
Do succeed exposing the decoded response, and post succeed. -/
theorem C8_amended_exposure_witness :
    (httpClient.Do hcfgTok henvBase CtxState.live).1
      = Except.ok { err := 0, result := { uuid := "X" }, message := "" } ∧
    (Client.post cfgTok envBase CtxState.live ErrorLevel none []).1
      = Except.ok () :=
  C8_amended_exposure hcfgTok henvBase CtxState.live cfgTok envBase ErrorLevel none []
    respOKX { err := 0, result := { uuid := "X" }, message := "" } "reqdata"
    rfl rfl rfl rfl (by decide) rfl rfl rfl

/-- Claim C9: the fingerprint is a deterministic function of frame
identity only — two stacks agreeing framewise on function name, file and
line get identical fingerprints (no addresses, timestamps or randomness
appear in the definition) — and the fingerprint field of the payload built
by httpClient.payload does not depend on the error value. -/
theorem C9_fingerprint_deterministic (s1 s2 : Stack) (hc : HttpCfg)
    (stack : Stack) (now : Int) (level : Level) (e1 e2 : Option String)
    (hlen : s1.length = s2.length)
    (hframes : ∀ i (h1 : i < s1.length) (h2 : i < s2.length),
      (s1.get ⟨i, h1⟩).method = (s2.get ⟨i, h2⟩).method ∧
      (s1.get ⟨i, h1⟩).filename = (s2.get ⟨i, h2⟩).filename ∧
      (s1.get ⟨i, h1⟩).line = (s2.get ⟨i, h2⟩).line) :
    Stack.fingerprint s1 = Stack.fingerprint s2 ∧
    (httpClient.payload hc stack now level e1).data.fingerprint
      = (httpClient.payload hc stack now level e2).data.fingerprint := by
  constructor
  · have hs : s1 = s2 := by
      apply List.ext_get hlen
      intro i h1 h2
      obtain ⟨hm, hf, hl⟩ := hframes i h1 h2
      exact Frame.eq_of_fields hm hf hl
    rw [hs]
  · rfl

/-- Witness for C9 at two one-frame stacks with identical frame fields and
two different error values. -/
theorem C9_fingerprint_deterministic_witness :
    Stack.fingerprint stackS = Stack.fingerprint stackS ∧
    (httpClient.payload hcfgTok stackS 0 ErrorLevel (some "boom")).data.fingerprint
      = (httpClient.payload hcfgTok stackS 0 ErrorLevel none).data.fingerprint :=
  C9_fingerprint_deterministic stackS stackS hcfgTok stackS 0 ErrorLevel
    (some "boom") none rfl (fun _ _ _ => ⟨rfl, rfl, rfl⟩)
